import Mathlib

/-!
Shallow embedding of the inspection-workflow core of the vehicle-assessment
backend: the assessment lifecycle (upload / analyze / compare), the phase
completeness tracker, the damage-matching engine with its textual location
parser, and the analysis-score computation of the detection providers.

Conventions of the embedding:
* database rows for one assessment are carried in an explicit
  `AssessmentState` record; each service function is a state transformer;
* JS numbers that hold integer money amounts are `Int`; confidence scores
  are `ℚ`; timestamps (`new Date()`) are abstract `Nat` ticks supplied by
  the caller;
* a thrown `Error` is an `Except.error` carrying the thrown message, and
  the check that throws precedes every database write in the source, so the
  error branch returns before any modified state is built.
-/

/-- The closed 5-value angle enumeration (`VehicleAngle` in the source). -/
inductive VehicleAngle where
  | front
  | rear
  | driver_side
  | passenger_side
  | roof
deriving DecidableEq, Repr

/-- Source `AssessmentPhase` in the source; the source literal `'return'` is the
constructor `ret` (`return` is a Lean keyword). -/
inductive AssessmentPhase where
  | pickup
  | ret
deriving DecidableEq, Repr

/-- Source `AssessmentStatus` in the source. -/
inductive AssessmentStatus where
  | pickup_in_progress
  | pickup_complete
  | return_in_progress
  | completed
deriving DecidableEq, Repr

/-- Source `DamageSeverity` in the source. -/
inductive DamageSeverity where
  | minor
  | moderate
  | severe
deriving DecidableEq, Repr

/-- Optional axis-aligned bounding box accompanying a detection. -/
structure BoundingBox where
  x : Int
  y : Int
  width : Int
  height : Int
deriving DecidableEq, Repr

/-- One photo row (`Photo` in the source types); `id` stands for the cuid
primary key, `uploadedAt` is dropped (never read by the embedded core). -/
structure Photo where
  id : Nat
  angle : VehicleAngle
  phase : AssessmentPhase
  filename : String
  storagePath : String
  fileSize : Nat
deriving DecidableEq, Repr

/-- One damage row (`Damage` in the source types).  `photoId` is the
nullable foreign key to the photo the damage was detected on; the schema
declares it `ON DELETE SET NULL`. -/
structure Damage where
  id : Nat
  angle : VehicleAngle
  phase : AssessmentPhase
  description : String
  severity : DamageSeverity
  location : String
  estimatedCost : Int
  aiConfidence : ℚ
  photoId : Option Nat
  isNew : Bool
  boundingBox : Option BoundingBox
deriving DecidableEq, Repr

/-- The database rows belonging to one assessment together with the
assessment record's own columns (`Assessment` in the source).  `nextId`
models the id generator for newly inserted photo/damage rows. -/
structure AssessmentState where
  vehicleId : String
  vehicleName : String
  status : AssessmentStatus
  photos : List Photo
  damages : List Damage
  totalDamageCost : Int
  newDamageCost : Int
  pickupAnalyzedAt : Option Nat
  returnAnalyzedAt : Option Nat
  completedAt : Option Nat
  nextId : Nat
deriving DecidableEq, Repr

/-- Source `createAssessment` / `startAssessment`: a fresh assessment in
`pickup_in_progress` with no photos, no damages and zero costs. -/
def startAssessment (vehicleId vehicleName : String) : AssessmentState :=
  { vehicleId := vehicleId
    vehicleName := vehicleName
    status := .pickup_in_progress
    photos := []
    damages := []
    totalDamageCost := 0
    newDamageCost := 0
    pickupAnalyzedAt := none
    returnAnalyzedAt := none
    completedAt := none
    nextId := 0 }

/-- The canonical required-angle list used throughout the source
(`['front', 'rear', 'driver_side', 'passenger_side', 'roof']`). -/
def allAngles : List VehicleAngle :=
  [.front, .rear, .driver_side, .passenger_side, .roof]

/- ===================================================================
   Location parser (inspectionService.ts `parseLocation`)

   The source applies the JavaScript regex  /x:(\d+),y:(\d+)/  to the
   location string and, on a match, returns the two captured integers.
   The regex is not anchored, so the engine searches every start index
   from the left and takes the first one at which the pattern matches.
   At one start index the pattern is:  literal "x:", then one or more
   digits, then literal ",y:", then one or more digits.  The greedy
   `\d+` followed by the non-digit `,` allows no backtracking (every
   shorter digit run is followed by a digit, never by `,`), so matching
   at an index is exactly: maximal digit run after "x:", then ",y:",
   then maximal digit run.  `parseInt(…, 10)` on a captured digit run is
   its decimal value.
   =================================================================== -/

/-- Decimal value of a digit run (the effect of `parseInt(match[i], 10)`
on a string of digits). -/
def digitsToNat (l : List Char) : Nat :=
  l.foldl (fun n c => n * 10 + (c.toNat - 48)) 0

/-- Match the pattern `x:(\d+),y:(\d+)` at the head of the character list,
returning the two captured integers. -/
def matchLocAt : List Char → Option (Nat × Nat)
  | 'x' :: ':' :: rest =>
      let d1 := rest.takeWhile Char.isDigit
      let r1 := rest.dropWhile Char.isDigit
      if d1 = [] then none
      else
        match r1 with
        | ',' :: 'y' :: ':' :: rest2 =>
            let d2 := rest2.takeWhile Char.isDigit
            if d2 = [] then none
            else some (digitsToNat d1, digitsToNat d2)
        | _ => none
  | _ => none

/-- Left-to-right search for the first index at which `matchLocAt`
succeeds (the unanchored-regex search of `String.prototype.match`). -/
def searchLoc : List Char → Option (Nat × Nat)
  | [] => none
  | c :: cs =>
      match matchLocAt (c :: cs) with
      | some p => some p
      | none => searchLoc cs

/-- Source `parseLocation` from the source: first match of `/x:(\d+),y:(\d+)/`
in the string, `none` when the pattern occurs nowhere.  The source's
`try`/`catch` never fires (`String.prototype.match` and `parseInt` do not
throw), and the embedding is total. -/
def parseLocation (location : String) : Option (Nat × Nat) :=
  searchLoc location.data

/- ===================================================================
   Damage matching (inspectionService.ts `isDamageLocationMatch`)
   =================================================================== -/

/-- Source `isDamageLocationMatch` from the source with its default threshold 50:
parse both locations; any parse failure is a no-match; otherwise compare
the Euclidean distance with 50.  The source computes
`Math.sqrt(dx*dx + dy*dy) <= 50` on exact integers below 2^53, which is
equivalent to `dx^2 + dy^2 ≤ 50^2` (50 and squares of small ints are
exactly representable and `Math.sqrt` is correctly rounded), so the
embedding compares squared distances. -/
def isDamageLocationMatch (damage1 damage2 : Damage) : Bool :=
  match parseLocation damage1.location, parseLocation damage2.location with
  | some loc1, some loc2 =>
      decide (((loc1.1 : Int) - loc2.1) ^ 2 + ((loc1.2 : Int) - loc2.2) ^ 2 ≤ 50 ^ 2)
  | _, _ => false

/- ===================================================================
   Photo model (models/photo.ts) and completeness tracker
   (models/assessment.ts `validateAllAnglesComplete` / `getMissingAngles`)
   =================================================================== -/

/-- Source `getPhotoByAngleAndPhase`: the unique photo row for the
`(assessment, angle, phase)` compound key, if present. -/
def getPhotoByAngleAndPhase (s : AssessmentState) (angle : VehicleAngle)
    (phase : AssessmentPhase) : Option Photo :=
  s.photos.find? (fun p => p.angle == angle && p.phase == phase)

/-- Source `savePhoto`: insert a new photo row; `prisma.photo.create` assigns a
fresh id.  Returns the created photo together with the updated state. -/
def savePhoto (s : AssessmentState) (angle : VehicleAngle) (phase : AssessmentPhase)
    (filename storagePath : String) (fileSize : Nat) : Photo × AssessmentState :=
  let photo : Photo :=
    { id := s.nextId, angle := angle, phase := phase, filename := filename,
      storagePath := storagePath, fileSize := fileSize }
  (photo, { s with photos := s.photos ++ [photo], nextId := s.nextId + 1 })

/-- Clear a damage's `photoId` when it referenced the deleted photo: the
schema's `damages_photoId_fkey … ON DELETE SET NULL`. -/
def detachDamageFromPhoto (photoId : Nat) (d : Damage) : Damage :=
  if d.photoId = some photoId then { d with photoId := none } else d

/-- Source `deletePhotoByAngleAndPhase`: `prisma.photo.delete` on the compound
unique key `(assessmentId, angle, phase)` removes the photo row for that
key; the foreign key on damages is `ON DELETE SET NULL`, so damage rows
pointing at the deleted photo keep existing with `photoId` cleared.
(When no photo has the key, `prisma.photo.delete` would throw; the
service only calls this after finding an existing photo.) -/
def deletePhotoByAngleAndPhase (s : AssessmentState) (angle : VehicleAngle)
    (phase : AssessmentPhase) : AssessmentState :=
  match getPhotoByAngleAndPhase s angle phase with
  | none => s
  | some p =>
      { s with
        photos := s.photos.filter (fun q => !(q.angle == angle && q.phase == phase))
        damages := s.damages.map (detachDamageFromPhoto p.id) }

/-- Source `uploadPhotoByAngle` from the inspection service: when a photo already
exists for the `(angle, phase)` key, delete it first, then save the new
photo.  Nothing else is touched — in particular no damage row is
deleted. -/
def uploadPhotoByAngle (s : AssessmentState) (angle : VehicleAngle)
    (phase : AssessmentPhase) (filename storagePath : String) (fileSize : Nat) :
    Photo × AssessmentState :=
  match getPhotoByAngleAndPhase s angle phase with
  | some _ =>
      savePhoto (deletePhotoByAngleAndPhase s angle phase) angle phase
        filename storagePath fileSize
  | none => savePhoto s angle phase filename storagePath fileSize

/-- The photo rows of one phase (`prisma.photo.findMany` on
`(assessmentId, phase)`). -/
def photosByPhase (s : AssessmentState) (phase : AssessmentPhase) : List Photo :=
  s.photos.filter (fun p => p.phase == phase)

/-- Source `validateAllAnglesComplete`: every required angle appears among the
angles of the phase's photos. -/
def validateAllAnglesComplete (s : AssessmentState) (phase : AssessmentPhase) : Bool :=
  allAngles.all (fun angle => (photosByPhase s phase).any (fun p => p.angle == angle))

/-- Source `getMissingAngles`: the required angles, in canonical order, that have
no photo in the phase. -/
def getMissingAngles (s : AssessmentState) (phase : AssessmentPhase) : List VehicleAngle :=
  allAngles.filter (fun angle => !((photosByPhase s phase).any (fun p => p.angle == angle)))

/-- Result shape of `getPhaseStatus`. -/
structure PhaseStatus where
  phase : AssessmentPhase
  isComplete : Bool
  capturedAngles : List VehicleAngle
  missingAngles : List VehicleAngle
deriving DecidableEq, Repr

/-- Source `getPhaseStatus` from the inspection service: completeness flag,
captured angles (the canonical list minus the missing ones) and missing
angles. -/
def getPhaseStatus (s : AssessmentState) (phase : AssessmentPhase) : PhaseStatus :=
  let isComplete := validateAllAnglesComplete s phase
  let missingAngles := getMissingAngles s phase
  let capturedAngles := allAngles.filter (fun a => !(missingAngles.contains a))
  { phase := phase, isComplete := isComplete,
    capturedAngles := capturedAngles, missingAngles := missingAngles }

/- ===================================================================
   Damage model (models/damage.ts)
   =================================================================== -/

/-- Source `getDamagesByAngleAndPhase` over the damage rows of one assessment. -/
def getDamagesByAngleAndPhase (damages : List Damage) (angle : VehicleAngle)
    (phase : AssessmentPhase) : List Damage :=
  damages.filter (fun d => d.angle == angle && d.phase == phase)

/-- Source `calculateTotalDamageCost`: the sum of `estimatedCost` over every
damage row of the assessment. -/
def calculateTotalDamageCost (damages : List Damage) : Int :=
  (damages.map (fun d => d.estimatedCost)).sum

/- ===================================================================
   Detection provider contract (aiProvider.ts) — the analyze operations
   are parametrized by the active provider's pure detection results.
   =================================================================== -/

/-- Source `DetectedDamage` of the provider contract. -/
structure DetectedDamage where
  description : String
  severity : DamageSeverity
  location : String
  estimatedCost : Int
  confidence : ℚ
  boundingBox : Option BoundingBox
deriving DecidableEq, Repr

/-- Source `PhotoAnalysis` of the provider contract. -/
structure PhotoAnalysis where
  photoId : Nat
  angle : VehicleAngle
  phase : AssessmentPhase
  detectedDamages : List DetectedDamage
  analysisScore : ℚ
deriving DecidableEq, Repr

/-- The detections the active provider returns for a photo — the pure
content of `aiService.analyzePhoto(photo, angle, phase).detectedDamages`
(the service reads only this field of the analysis). -/
abbrev DetectFun := Photo → VehicleAngle → AssessmentPhase → List DetectedDamage

/-- Source `saveDamage`: insert one damage row with a fresh id, carrying the
detection's fields, the photo reference and the given `isNew` flag. -/
def saveDamage (s : AssessmentState) (angle : VehicleAngle) (phase : AssessmentPhase)
    (dd : DetectedDamage) (photoId : Option Nat) (isNew : Bool) : AssessmentState :=
  let d : Damage :=
    { id := s.nextId, angle := angle, phase := phase,
      description := dd.description, severity := dd.severity,
      location := dd.location, estimatedCost := dd.estimatedCost,
      aiConfidence := dd.confidence, photoId := photoId, isNew := isNew,
      boundingBox := dd.boundingBox }
  { s with damages := s.damages ++ [d], nextId := s.nextId + 1 }

/-- The per-angle body of the analyze loops: fetch the phase's photo for
the angle (`continue` when absent), run detection, save every detected
damage with `isNew = false`. -/
def analyzeAngleDamages (detect : DetectFun) (phase : AssessmentPhase)
    (s : AssessmentState) (angle : VehicleAngle) : AssessmentState :=
  match getPhotoByAngleAndPhase s angle phase with
  | none => s
  | some photo =>
      (detect photo angle phase).foldl
        (fun t dd => saveDamage t angle phase dd (some photo.id) false) s

/-- Source `analyzePickupPhotos`: validate that all five pickup angles have a
photo (throwing before any write when not), then detect and save damages
per angle, stamp `pickupAnalyzedAt`, set status `pickup_complete`, and
store the recomputed total cost with `newDamageCost = 0`. -/
def analyzePickupPhotos (detect : DetectFun) (now : Nat) (s : AssessmentState) :
    Except String AssessmentState :=
  if validateAllAnglesComplete s .pickup = false then
    .error "Not all angles captured for pickup phase"
  else
    let s1 := allAngles.foldl (analyzeAngleDamages detect .pickup) s
    let s2 := { s1 with pickupAnalyzedAt := some now, status := .pickup_complete }
    let totalCost := calculateTotalDamageCost s2.damages
    .ok { s2 with totalDamageCost := totalCost, newDamageCost := 0 }

/-- Source `analyzeReturnPhotos`: validate that all five return angles have a
photo (throwing before any write when not), then detect and save damages
per angle and stamp `returnAnalyzedAt`.  It changes neither the status
nor the costs. -/
def analyzeReturnPhotos (detect : DetectFun) (now : Nat) (s : AssessmentState) :
    Except String AssessmentState :=
  if validateAllAnglesComplete s .ret = false then
    .error "Not all angles captured for return phase"
  else
    let s1 := allAngles.foldl (analyzeAngleDamages detect .ret) s
    .ok { s1 with returnAnalyzedAt := some now }

/- ===================================================================
   Comparison engine (inspectionService.ts `comparePhotosAndDamages`)
   =================================================================== -/

/-- The inner loop of the comparison: a return damage is new exactly when
no pickup damage of its angle matches its location. -/
def isReturnDamageNew (pickupDamages : List Damage) (returnDamage : Damage) : Bool :=
  !(pickupDamages.any (fun pickupDamage => isDamageLocationMatch returnDamage pickupDamage))

/-- Whether the comparison loop flags this damage: it must be one of the
return damages iterated for its angle, and no pickup damage of the angle
may match it. -/
def compareFlag (damages : List Damage) (d : Damage) : Bool :=
  d.phase == .ret &&
    isReturnDamageNew (getDamagesByAngleAndPhase damages d.angle .pickup) d

/-- The effect of the comparison loop on a single damage row: the loop
iterates the return damages of each angle and calls
`markDamageAsNew(returnDamage.id)` on the unmatched ones; ids are unique
(database primary keys), so the row updated is exactly the iterated row,
rendered here as a pointwise update. -/
def compareMarkOne (damages : List Damage) (d : Damage) : Damage :=
  if compareFlag damages d then { d with isNew := true } else d

/-- All damage rows after the comparison loop's `markDamageAsNew` calls. -/
def compareMarkDamages (damages : List Damage) : List Damage :=
  damages.map (compareMarkOne damages)

/-- Source `totalNewDamageCost` as accumulated by the comparison loop: per angle,
the costs of the unmatched return damages of that angle. -/
def compareNewDamageCost (damages : List Damage) : Int :=
  (allAngles.map (fun angle =>
    (((getDamagesByAngleAndPhase damages angle .ret).filter
        (isReturnDamageNew (getDamagesByAngleAndPhase damages angle .pickup))).map
      (fun d => d.estimatedCost)).sum)).sum

/-- Source `comparePhotosAndDamages`: for each of the five angles, flag the
unmatched return damages as new and accumulate their costs; then store
the recomputed total cost and the accumulated new cost, set the status to
`completed` and stamp `completedAt`.  The source performs no precondition
check beyond the assessment lookup. -/
def comparePhotosAndDamages (now : Nat) (s : AssessmentState) : AssessmentState :=
  let newCost := compareNewDamageCost s.damages
  let damages1 := compareMarkDamages s.damages
  let totalCost := calculateTotalDamageCost damages1
  { s with damages := damages1, totalDamageCost := totalCost,
           newDamageCost := newCost, status := .completed, completedAt := some now }

/- ===================================================================
   Operation alphabet and runner (for lifecycle-invariant claims):
   a thrown error leaves the database untouched, because in every
   operation the throwing check precedes the first write.
   =================================================================== -/

/-- One invocation of a workflow operation on an existing assessment. -/
inductive Op where
  | upload (angle : VehicleAngle) (phase : AssessmentPhase)
      (filename storagePath : String) (fileSize : Nat)
  | analyzePickup
  | analyzeReturn
  | compare
deriving DecidableEq, Repr

/-- Run one operation; a thrown error leaves the state unchanged. -/
def step (detect : DetectFun) (now : Nat) (s : AssessmentState) : Op → AssessmentState
  | .upload angle phase filename storagePath fileSize =>
      (uploadPhotoByAngle s angle phase filename storagePath fileSize).2
  | .analyzePickup =>
      match analyzePickupPhotos detect now s with
      | .ok s1 => s1
      | .error _ => s
  | .analyzeReturn =>
      match analyzeReturnPhotos detect now s with
      | .ok s1 => s1
      | .error _ => s
  | .compare => comparePhotosAndDamages now s

/-- Run a sequence of operations (all at tick 0; no claim reads the
ticks' values). -/
def run (detect : DetectFun) (s : AssessmentState) (ops : List Op) : AssessmentState :=
  ops.foldl (step detect 0) s

/-- Position of a status along the intended forward order. -/
def statusRank : AssessmentStatus → Nat
  | .pickup_in_progress => 0
  | .pickup_complete => 1
  | .return_in_progress => 2
  | .completed => 3

/- ===================================================================
   Provider analysis scores
   =================================================================== -/

/-- Source `calculateAnalysisScore` shared verbatim by the HuggingFace and
Roboflow providers: perfect score on no detections, else the mean
confidence capped at 1. -/
def calculateAnalysisScore (damages : List DetectedDamage) : ℚ :=
  if damages.length = 0 then 1
  else min ((damages.foldl (fun sum d => sum + d.confidence) 0) / damages.length) 1

/-- Source `MockProvider.generatePickupDamages`: the fixed baseline detections
per angle. -/
def generatePickupDamages : VehicleAngle → List DetectedDamage
  | .front =>
      [{ description := "Minor scratch on bumper", severity := .minor,
         location := "x:150,y:100", estimatedCost := 150, confidence := 92/100,
         boundingBox := some { x := 100, y := 50, width := 200, height := 100 } }]
  | .rear =>
      [{ description := "Dent on rear panel", severity := .moderate,
         location := "x:200,y:80", estimatedCost := 450, confidence := 88/100,
         boundingBox := some { x := 150, y := 30, width := 250, height := 150 } }]
  | .driver_side => []
  | .passenger_side =>
      [{ description := "Paint chip on door", severity := .minor,
         location := "x:100,y:120", estimatedCost := 200, confidence := 85/100,
         boundingBox := some { x := 50, y := 80, width := 150, height := 120 } }]
  | .roof => []

/-- Source `MockProvider.generateReturnDamages`: the fixed return-phase
detections per angle. -/
def generateReturnDamages : VehicleAngle → List DetectedDamage
  | .front =>
      [{ description := "Minor scratch on bumper", severity := .minor,
         location := "x:150,y:100", estimatedCost := 150, confidence := 92/100,
         boundingBox := some { x := 100, y := 50, width := 200, height := 100 } },
       { description := "New headlight crack", severity := .severe,
         location := "x:80,y:60", estimatedCost := 800, confidence := 9/10,
         boundingBox := some { x := 20, y := 20, width := 180, height := 100 } }]
  | .rear =>
      [{ description := "Dent on rear panel", severity := .moderate,
         location := "x:200,y:80", estimatedCost := 450, confidence := 88/100,
         boundingBox := some { x := 150, y := 30, width := 250, height := 150 } }]
  | .driver_side =>
      [{ description := "Deep scratch on door", severity := .severe,
         location := "x:120,y:140", estimatedCost := 650, confidence := 87/100,
         boundingBox := some { x := 70, y := 100, width := 200, height := 150 } }]
  | .passenger_side =>
      [{ description := "Paint chip on door", severity := .minor,
         location := "x:100,y:120", estimatedCost := 200, confidence := 85/100,
         boundingBox := some { x := 50, y := 80, width := 150, height := 120 } }]
  | .roof =>
      [{ description := "Hail damage - multiple dents", severity := .moderate,
         location := "x:200,y:150", estimatedCost := 1200, confidence := 89/100,
         boundingBox := some { x := 120, y := 80, width := 350, height := 280 } }]

/-- Source `MockProvider.analyzePhoto`: phase-dependent fixed detections and the
fixed analysis score `0.85` when any damage was generated, `0.95`
otherwise. -/
def mockAnalyzePhoto (photo : Photo) (angle : VehicleAngle)
    (phase : AssessmentPhase) : PhotoAnalysis :=
  let detectedDamages :=
    if phase == .pickup then generatePickupDamages angle else generateReturnDamages angle
  { photoId := photo.id, angle := angle, phase := phase,
    detectedDamages := detectedDamages,
    analysisScore := if detectedDamages.length > 0 then 85/100 else 95/100 }

/- ===================================================================
   Specification-side notions the theorems compare the code against
   =================================================================== -/

/-- Spec-side matching relation: both damages carry parseable locations
and those locations lie within Euclidean distance 50 of each other
(squared distances over ℤ; coordinates are the parsed non-negative
integers). -/
def withinThreshold (d p : Damage) : Prop :=
  ∃ x1 y1 x2 y2 : Nat,
    parseLocation d.location = some (x1, y1) ∧
    parseLocation p.location = some (x2, y2) ∧
    ((x1 : Int) - x2) ^ 2 + ((y1 : Int) - y2) ^ 2 ≤ 50 ^ 2

/-- Strip the nullable photo reference of a damage row; two rows equal up
to `stripPhotoRef` agree on every column except `photoId`. -/
def stripPhotoRef (d : Damage) : Damage :=
  { d with photoId := none }

/- ===================================================================
   Concrete fixtures used by counterexamples and witnesses
   =================================================================== -/

/-- A provider that detects nothing (a legal provider behavior). -/
def noDetect : DetectFun := fun _ _ _ => []

/-- A full happy-path operation sequence: five pickup uploads, pickup
analysis, five return uploads, return analysis, comparison. -/
def fullInspectionOps : List Op :=
  [ .upload .front .pickup "f" "p" 1, .upload .rear .pickup "f" "p" 1,
    .upload .driver_side .pickup "f" "p" 1, .upload .passenger_side .pickup "f" "p" 1,
    .upload .roof .pickup "f" "p" 1, .analyzePickup,
    .upload .front .ret "f" "p" 1, .upload .rear .ret "f" "p" 1,
    .upload .driver_side .ret "f" "p" 1, .upload .passenger_side .ret "f" "p" 1,
    .upload .roof .ret "f" "p" 1, .analyzeReturn, .compare ]

/-- Scenario A pickup damage, at `x:150,y:100`. -/
def scenarioPickupDamage : Damage :=
  { id := 10, angle := .front, phase := .pickup, description := "Minor scratch on bumper",
    severity := .minor, location := "x:150,y:100", estimatedCost := 150,
    aiConfidence := 92/100, photoId := some 0, isNew := false, boundingBox := none }

/-- Scenario A return damage, at `x:154,y:103` (distance ≈ 5 from the
pickup damage). -/
def scenarioReturnDamage : Damage :=
  { id := 11, angle := .front, phase := .ret, description := "Minor scratch on bumper",
    severity := .minor, location := "x:154,y:103", estimatedCost := 150,
    aiConfidence := 92/100, photoId := some 1, isNew := false, boundingBox := none }

/-- A return damage whose location string is malformed. -/
def malformedReturnDamage : Damage :=
  { id := 12, angle := .roof, phase := .ret, description := "Hail damage",
    severity := .moderate, location := "center of roof", estimatedCost := 1200,
    aiConfidence := 89/100, photoId := some 2, isNew := false, boundingBox := none }

/-- An assessment mid-pickup: one photo uploaded for the front angle and
one damage row attached to that photo. -/
def frontOnlyState : AssessmentState :=
  { startAssessment "veh-1" "Test Car" with
    photos := [{ id := 0, angle := .front, phase := .pickup,
                 filename := "front.jpg", storagePath := "p0", fileSize := 1 }],
    damages := [{ id := 1, angle := .front, phase := .pickup,
                  description := "scratch", severity := .minor, location := "x:10,y:10",
                  estimatedCost := 100, aiConfidence := 9/10, photoId := some 0,
                  isNew := false, boundingBox := none }],
    nextId := 2 }

/-- An assessment holding exactly the scenario-A damage pair. -/
def scenarioAState : AssessmentState :=
  { startAssessment "veh-1" "Test Car" with
    damages := [scenarioPickupDamage, scenarioReturnDamage],
    nextId := 12 }

/-- The photo handed to the mock provider in the counterexample. -/
def mockPhoto : Photo :=
  { id := 0, angle := .driver_side, phase := .pickup, filename := "f",
    storagePath := "p", fileSize := 1 }

/-- One concrete detection used to witness the analysis-score formula. -/
def witnessDetection : DetectedDamage :=
  { description := "Minor scratch on bumper", severity := .minor,
    location := "x:150,y:100", estimatedCost := 150, confidence := 92/100,
    boundingBox := none }

/- ===================================================================
   Helper lemmas
   =================================================================== -/

theorem mem_allAngles (a : VehicleAngle) : a ∈ allAngles := by
  cases a <;> simp [allAngles]

theorem compareMarkOne_angle (damages : List Damage) (d : Damage) :
    (compareMarkOne damages d).angle = d.angle := by
  unfold compareMarkOne; split <;> rfl

theorem compareMarkOne_phase (damages : List Damage) (d : Damage) :
    (compareMarkOne damages d).phase = d.phase := by
  unfold compareMarkOne; split <;> rfl

theorem compareMarkOne_location (damages : List Damage) (d : Damage) :
    (compareMarkOne damages d).location = d.location := by
  unfold compareMarkOne; split <;> rfl

theorem compareMarkOne_estimatedCost (damages : List Damage) (d : Damage) :
    (compareMarkOne damages d).estimatedCost = d.estimatedCost := by
  unfold compareMarkOne; split <;> rfl

theorem compareMarkOne_of_pickup (damages : List Damage) (d : Damage)
    (h : d.phase = .pickup) : compareMarkOne damages d = d := by
  simp [compareMarkOne, compareFlag, h]

theorem isDamageLocationMatch_congr {d1 d2 p1 p2 : Damage}
    (h1 : d1.location = d2.location) (h2 : p1.location = p2.location) :
    isDamageLocationMatch d1 p1 = isDamageLocationMatch d2 p2 := by
  unfold isDamageLocationMatch; rw [h1, h2]

theorem isReturnDamageNew_congr (pickups : List Damage) {d1 d2 : Damage}
    (h : d1.location = d2.location) :
    isReturnDamageNew pickups d1 = isReturnDamageNew pickups d2 := by
  unfold isReturnDamageNew
  have : (fun p => isDamageLocationMatch d1 p) = (fun p => isDamageLocationMatch d2 p) :=
    funext fun p => isDamageLocationMatch_congr h rfl
  rw [this]

theorem getDamages_compareMark_ret (damages : List Damage) (a : VehicleAngle) :
    getDamagesByAngleAndPhase (compareMarkDamages damages) a .ret
      = (getDamagesByAngleAndPhase damages a .ret).map (compareMarkOne damages) := by
  unfold compareMarkDamages getDamagesByAngleAndPhase
  rw [List.filter_map]
  simp only [Function.comp_def, compareMarkOne_angle, compareMarkOne_phase]

theorem getDamages_compareMark_pickup (damages : List Damage) (a : VehicleAngle) :
    getDamagesByAngleAndPhase (compareMarkDamages damages) a .pickup
      = getDamagesByAngleAndPhase damages a .pickup := by
  unfold compareMarkDamages getDamagesByAngleAndPhase
  rw [List.filter_map]
  simp only [Function.comp_def, compareMarkOne_angle, compareMarkOne_phase]
  rw [List.map_congr_left (fun d hd => by
    have h2 := (List.mem_filter.mp hd).2
    simp only [Bool.and_eq_true, beq_iff_eq] at h2
    exact compareMarkOne_of_pickup damages d h2.2)]
  exact List.map_id _

theorem compareFlag_compareMark (damages : List Damage) (d : Damage) :
    compareFlag (compareMarkDamages damages) (compareMarkOne damages d)
      = compareFlag damages d := by
  unfold compareFlag
  rw [compareMarkOne_phase, compareMarkOne_angle, getDamages_compareMark_pickup,
      isReturnDamageNew_congr _ (compareMarkOne_location damages d)]

theorem compareMarkOne_idem (damages : List Damage) (d : Damage) :
    compareMarkOne (compareMarkDamages damages) (compareMarkOne damages d)
      = compareMarkOne damages d := by
  have h := compareFlag_compareMark damages d
  cases hf : compareFlag damages d with
  | false =>
      have hd : compareMarkOne damages d = d := by simp [compareMarkOne, hf]
      rw [hf] at h
      rw [hd] at h ⊢
      simp [compareMarkOne, h]
  | true =>
      have hd : compareMarkOne damages d = { d with isNew := true } := by
        simp [compareMarkOne, hf]
      rw [hf] at h
      rw [hd] at h ⊢
      simp [compareMarkOne, h]

theorem compareMarkDamages_idem (damages : List Damage) :
    compareMarkDamages (compareMarkDamages damages) = compareMarkDamages damages := by
  have h1 : compareMarkDamages (compareMarkDamages damages)
      = damages.map (fun d => compareMarkOne (compareMarkDamages damages)
          (compareMarkOne damages d)) := by
    rw [show compareMarkDamages (compareMarkDamages damages)
        = (damages.map (compareMarkOne damages)).map
            (compareMarkOne (compareMarkDamages damages)) from rfl, List.map_map]
    rfl
  rw [h1]
  exact List.map_congr_left (fun d _ => compareMarkOne_idem damages d)

theorem compareNewDamageCost_compareMark (damages : List Damage) :
    compareNewDamageCost (compareMarkDamages damages) = compareNewDamageCost damages := by
  unfold compareNewDamageCost
  congr 1
  refine List.map_congr_left (fun a _ => ?_)
  rw [getDamages_compareMark_ret, getDamages_compareMark_pickup]
  rw [List.filter_map]
  rw [List.filter_congr (fun d _ =>
    show (isReturnDamageNew (getDamagesByAngleAndPhase damages a .pickup) ∘
        compareMarkOne damages) d = _ from
      isReturnDamageNew_congr _ (compareMarkOne_location damages d))]
  rw [List.map_map]
  refine congrArg List.sum (List.map_congr_left (fun d _ => ?_))
  exact compareMarkOne_estimatedCost damages d

theorem sum_map_add_int {α : Type} (l : List α) (g h : α → Int) :
    (l.map (fun a => g a + h a)).sum = (l.map g).sum + (l.map h).sum := by
  induction l with
  | nil => simp
  | cons a t ih => simp only [List.map_cons, List.sum_cons, ih]; ring

theorem foldl_add_confidence (l : List DetectedDamage) (q : ℚ) :
    l.foldl (fun sum d => sum + d.confidence) q
      = q + (l.map (fun d => d.confidence)).sum := by
  induction l generalizing q with
  | nil => simp
  | cons a t ih => simp only [List.foldl_cons, List.map_cons, List.sum_cons, ih]; ring

theorem sum_filter_partition (l : List Damage) (p : Damage → Bool) (f : Damage → Int) :
    (allAngles.map (fun a =>
        ((l.filter (fun d => d.angle == a && p d)).map f).sum)).sum
      = ((l.filter p).map f).sum := by
  induction l with
  | nil => simp
  | cons d t ih =>
      have h1 : ∀ a : VehicleAngle,
          (((d :: t).filter (fun e => e.angle == a && p e)).map f).sum
            = (if d.angle == a && p d then f d else 0)
              + ((t.filter (fun e => e.angle == a && p e)).map f).sum := by
        intro a
        by_cases h : (d.angle == a && p d) = true
        · simp [List.filter_cons, h]
        · simp [List.filter_cons, h]
      rw [List.map_congr_left (fun a _ => h1 a), sum_map_add_int, ih]
      have h3 : (allAngles.map (fun a => if d.angle == a && p d then f d else 0)).sum
          = if p d then f d else 0 := by
        cases hp : p d
        · simp [allAngles, hp]
        · cases hd : d.angle <;> simp [allAngles, hd, hp]
      rw [h3]
      by_cases hp : p d = true
      · simp [List.filter_cons, hp]
      · simp [List.filter_cons, hp]

theorem validate_iff_missing_nil (s : AssessmentState) (ph : AssessmentPhase) :
    validateAllAnglesComplete s ph = true ↔ getMissingAngles s ph = [] := by
  simp [validateAllAnglesComplete, getMissingAngles, List.all_eq_true,
        List.filter_eq_nil_iff]

theorem isDamageLocationMatch_iff (d p : Damage) :
    isDamageLocationMatch d p = true ↔ withinThreshold d p := by
  cases hd : parseLocation d.location with
  | none => simp [isDamageLocationMatch, withinThreshold, hd]
  | some l1 =>
    cases hp : parseLocation p.location with
    | none => simp [isDamageLocationMatch, withinThreshold, hd, hp]
    | some l2 =>
      obtain ⟨x1, y1⟩ := l1
      obtain ⟨x2, y2⟩ := l2
      simp only [isDamageLocationMatch, withinThreshold, hd, hp, decide_eq_true_eq,
                 Option.some.injEq, Prod.mk.injEq]
      constructor
      · intro h
        exact ⟨x1, y1, x2, y2, ⟨rfl, rfl⟩, ⟨rfl, rfl⟩, h⟩
      · rintro ⟨a, b, c, e, ⟨ha, hb⟩, ⟨hc, he⟩, hle⟩
        subst ha; subst hb; subst hc; subst he
        exact hle

theorem isReturnDamageNew_iff (damages : List Damage) (d : Damage) :
    isReturnDamageNew (getDamagesByAngleAndPhase damages d.angle .pickup) d = true ↔
      ¬ ∃ p, p ∈ damages ∧ p.angle = d.angle ∧ p.phase = .pickup ∧ withinThreshold d p := by
  unfold isReturnDamageNew getDamagesByAngleAndPhase
  simp only [Bool.not_eq_true', List.any_eq_false, List.mem_filter,
             Bool.and_eq_true, beq_iff_eq, not_exists]
  constructor
  · intro h p hp
    obtain ⟨hmem, hangle, hphase, hthr⟩ := hp
    exact (h p ⟨hmem, hangle, hphase⟩) ((isDamageLocationMatch_iff d p).mpr hthr)
  · intro h p hp hmatch
    exact h p ⟨hp.1, hp.2.1, hp.2.2, (isDamageLocationMatch_iff d p).mp hmatch⟩

theorem takeWhile_all {p : Char → Bool} (l : List Char) (h : ∀ c ∈ l, p c = true) :
    l.takeWhile p = l := by
  rw [← List.append_nil l, List.takeWhile_append_of_pos h]
  simp

theorem matchLocAt_exact (d1 d2 : List Char) (h1 : d1 ≠ []) (h2 : d2 ≠ [])
    (hd1 : ∀ c ∈ d1, c.isDigit = true) (hd2 : ∀ c ∈ d2, c.isDigit = true) :
    matchLocAt ('x' :: ':' :: (d1 ++ ',' :: 'y' :: ':' :: d2))
      = some (digitsToNat d1, digitsToNat d2) := by
  have htake : (d1 ++ ',' :: 'y' :: ':' :: d2).takeWhile Char.isDigit = d1 := by
    rw [List.takeWhile_append_of_pos hd1]
    simp [List.takeWhile_cons]
  have hdrop : (d1 ++ ',' :: 'y' :: ':' :: d2).dropWhile Char.isDigit
      = ',' :: 'y' :: ':' :: d2 := by
    rw [List.dropWhile_append_of_pos hd1]
    simp [List.dropWhile_cons]
  simp only [matchLocAt, htake, hdrop, takeWhile_all d2 hd2]
  simp [h1, h2]

theorem searchLoc_isSome_iff (l : List Char) :
    (searchLoc l).isSome = true ↔ ∃ n, (matchLocAt (l.drop n)).isSome = true := by
  induction l with
  | nil =>
      simp [searchLoc, show matchLocAt [] = none from rfl]
  | cons c cs ih =>
      cases hm : matchLocAt (c :: cs) with
      | some p =>
          constructor
          · intro _
            exact ⟨0, by simp [hm]⟩
          · intro _
            simp [searchLoc, hm]
      | none =>
          have hstep : searchLoc (c :: cs) = searchLoc cs := by
            simp [searchLoc, hm]
          rw [hstep, ih]
          constructor
          · rintro ⟨n, hn⟩
            exact ⟨n + 1, by simpa [List.drop_succ_cons] using hn⟩
          · rintro ⟨n, hn⟩
            cases n with
            | zero => simp [hm] at hn
            | succ m => exact ⟨m, by simpa [List.drop_succ_cons] using hn⟩

theorem statusRank_le_three (st : AssessmentStatus) : statusRank st ≤ 3 := by
  cases st <;> simp [statusRank]

theorem savePhoto_status (s : AssessmentState) (a : VehicleAngle) (ph : AssessmentPhase)
    (f sp : String) (n : Nat) : (savePhoto s a ph f sp n).2.status = s.status := rfl

theorem deletePhoto_status (s : AssessmentState) (a : VehicleAngle)
    (ph : AssessmentPhase) : (deletePhotoByAngleAndPhase s a ph).status = s.status := by
  unfold deletePhotoByAngleAndPhase
  cases getPhotoByAngleAndPhase s a ph <;> rfl

theorem uploadPhoto_status (s : AssessmentState) (a : VehicleAngle) (ph : AssessmentPhase)
    (f sp : String) (n : Nat) :
    (uploadPhotoByAngle s a ph f sp n).2.status = s.status := by
  unfold uploadPhotoByAngle
  cases getPhotoByAngleAndPhase s a ph with
  | none => rfl
  | some p => rw [savePhoto_status, deletePhoto_status]

theorem saveDamage_status (s : AssessmentState) (a : VehicleAngle) (ph : AssessmentPhase)
    (dd : DetectedDamage) (pid : Option Nat) (b : Bool) :
    (saveDamage s a ph dd pid b).status = s.status := rfl

theorem foldl_saveDamage_status (a : VehicleAngle) (ph : AssessmentPhase)
    (pid : Option Nat) (l : List DetectedDamage) (s : AssessmentState) :
    (l.foldl (fun t dd => saveDamage t a ph dd pid false) s).status = s.status := by
  induction l generalizing s with
  | nil => rfl
  | cons dd t ih => rw [List.foldl_cons, ih, saveDamage_status]

theorem analyzeAngleDamages_status (detect : DetectFun) (ph : AssessmentPhase)
    (s : AssessmentState) (a : VehicleAngle) :
    (analyzeAngleDamages detect ph s a).status = s.status := by
  unfold analyzeAngleDamages
  cases getPhotoByAngleAndPhase s a ph with
  | none => rfl
  | some photo => exact foldl_saveDamage_status a ph (some photo.id) (detect photo a ph) s

theorem foldl_analyzeAngle_status (detect : DetectFun) (ph : AssessmentPhase)
    (l : List VehicleAngle) (s : AssessmentState) :
    (l.foldl (analyzeAngleDamages detect ph) s).status = s.status := by
  induction l generalizing s with
  | nil => rfl
  | cons a t ih => rw [List.foldl_cons, ih, analyzeAngleDamages_status]

theorem stripPhotoRef_detach (pid : Nat) (d : Damage) :
    stripPhotoRef (detachDamageFromPhoto pid d) = stripPhotoRef d := by
  unfold stripPhotoRef detachDamageFromPhoto
  split <;> rfl

/- ===================================================================
   Claim theorems
   =================================================================== -/

/-- Claim C10: for every assessment and phase, the captured and missing
angle lists of the phase status are disjoint and together cover exactly
the fixed 5-angle set; the missing list is a subsequence of the canonical
order `front, rear, driver_side, passenger_side, roof`; and the phase is
reported complete exactly when no angle is missing. -/
theorem getPhaseStatus_partitions_angles (s : AssessmentState) (ph : AssessmentPhase) :
    (∀ a : VehicleAngle, a ∈ (getPhaseStatus s ph).capturedAngles ∨
        a ∈ (getPhaseStatus s ph).missingAngles) ∧
    (∀ a : VehicleAngle, ¬(a ∈ (getPhaseStatus s ph).capturedAngles ∧
        a ∈ (getPhaseStatus s ph).missingAngles)) ∧
    (getPhaseStatus s ph).missingAngles.Sublist allAngles ∧
    (getPhaseStatus s ph).capturedAngles.Sublist allAngles ∧
    ((getPhaseStatus s ph).isComplete = true ↔
        (getPhaseStatus s ph).missingAngles = []) := by
  refine ⟨?_, ?_, ?_, ?_, ?_⟩
  · intro a
    by_cases h : a ∈ getMissingAngles s ph
    · exact Or.inr h
    · refine Or.inl ?_
      show a ∈ allAngles.filter (fun a => !((getMissingAngles s ph).contains a))
      refine List.mem_filter.mpr ⟨mem_allAngles a, ?_⟩
      simp [List.contains, h, List.elem_eq_mem]
  · intro a hcm
    have hc := hcm.1
    have hm := hcm.2
    have := (List.mem_filter.mp hc).2
    simp [List.contains, List.elem_eq_mem] at this
    exact this hm
  · exact List.filter_sublist _
  · exact List.filter_sublist _
  · exact validate_iff_missing_nil s ph

/-- Witness for C10 at a concrete state: only the front pickup angle has
a photo. -/
theorem getPhaseStatus_partitions_angles_witness :
    (∀ a : VehicleAngle, a ∈ (getPhaseStatus frontOnlyState .pickup).capturedAngles ∨
        a ∈ (getPhaseStatus frontOnlyState .pickup).missingAngles) ∧
    (∀ a : VehicleAngle, ¬(a ∈ (getPhaseStatus frontOnlyState .pickup).capturedAngles ∧
        a ∈ (getPhaseStatus frontOnlyState .pickup).missingAngles)) ∧
    (getPhaseStatus frontOnlyState .pickup).missingAngles.Sublist allAngles ∧
    (getPhaseStatus frontOnlyState .pickup).capturedAngles.Sublist allAngles ∧
    ((getPhaseStatus frontOnlyState .pickup).isComplete = true ↔
        (getPhaseStatus frontOnlyState .pickup).missingAngles = []) :=
  getPhaseStatus_partitions_angles frontOnlyState .pickup

/-- Claim C8: with fewer than five pickup angles photographed,
`analyzePickupPhotos` throws the phase-incomplete error, and the
assessment's rows, status, costs and timestamps are all left unchanged
(the error precedes every write). -/
theorem analyzePickupPhotos_incomplete_fails (detect : DetectFun) (now : Nat)
    (s : AssessmentState)
    (h : (getPhaseStatus s .pickup).capturedAngles.length < 5) :
    analyzePickupPhotos detect now s
        = .error "Not all angles captured for pickup phase" ∧
    step detect now s .analyzePickup = s := by
  have hval : validateAllAnglesComplete s .pickup = false := by
    cases hvc : validateAllAnglesComplete s .pickup with
    | false => rfl
    | true =>
        exfalso
        have hmiss := (validate_iff_missing_nil s .pickup).mp hvc
        have hcap : (getPhaseStatus s .pickup).capturedAngles = allAngles := by
          show allAngles.filter
              (fun a => !((getMissingAngles s .pickup).contains a)) = allAngles
          rw [hmiss]
          simp
        rw [hcap] at h
        simp [allAngles] at h
  constructor
  · simp [analyzePickupPhotos, hval]
  · simp [step, analyzePickupPhotos, hval]

/-- Witness for C8: a fresh assessment has zero captured pickup angles,
and analyzing it fails without touching the state. -/
theorem analyzePickupPhotos_incomplete_fails_witness :
    analyzePickupPhotos noDetect 0 (startAssessment "veh-1" "Test Car")
        = .error "Not all angles captured for pickup phase" ∧
    step noDetect 0 (startAssessment "veh-1" "Test Car") .analyzePickup
        = startAssessment "veh-1" "Test Car" :=
  analyzePickupPhotos_incomplete_fails noDetect 0 (startAssessment "veh-1" "Test Car")
    (by decide)

/-- Counterexample to claim C2: on a fresh assessment neither phase is
analyzed, yet `comparePhotosAndDamages` runs to completion, setting the
status to `completed` and stamping `completedAt` — it does not fail with
a precondition error. -/
theorem compare_before_analysis_still_completes :
    (startAssessment "veh-1" "Test Car").pickupAnalyzedAt = none ∧
    (startAssessment "veh-1" "Test Car").returnAnalyzedAt = none ∧
    (comparePhotosAndDamages 0 (startAssessment "veh-1" "Test Car")).status
        = .completed ∧
    (comparePhotosAndDamages 0 (startAssessment "veh-1" "Test Car")).completedAt
        = some 0 :=
  ⟨rfl, rfl, rfl, rfl⟩

/-- Claim C2 (amended): `comparePhotosAndDamages` checks no analysis
precondition: on any existing assessment — analyzed or not — it runs the
marking, stores the recomputed costs, sets the status to `completed` and
stamps `completedAt`. -/
theorem comparePhotosAndDamages_no_precondition (now : Nat) (s : AssessmentState) :
    (comparePhotosAndDamages now s).status = .completed ∧
    (comparePhotosAndDamages now s).completedAt = some now ∧
    (comparePhotosAndDamages now s).newDamageCost = compareNewDamageCost s.damages ∧
    (comparePhotosAndDamages now s).totalDamageCost
        = calculateTotalDamageCost (compareMarkDamages s.damages) ∧
    (comparePhotosAndDamages now s).damages = compareMarkDamages s.damages :=
  ⟨rfl, rfl, rfl, rfl, rfl⟩

/-- Counterexample to claim C5: the location parser is not anchored — a
string that merely contains `x:150,y:100` between other characters is
accepted, where the claim requires it rejected. -/
theorem parseLocation_accepts_surrounded_pattern :
    parseLocation "zx:150,y:100z" = some (150, 100) := by decide

/-- Claim C5 (amended): the parser returns the integer pair of the first
substring of the form `x:<digits>,y:<digits>` anywhere in the input — in
particular every string that is exactly of that form parses to its two
integers — and returns `none` exactly when no position of the string
matches the pattern; it never throws (total function). -/
theorem parseLocation_first_match_semantics (d1 d2 : List Char)
    (h1 : d1 ≠ []) (h2 : d2 ≠ [])
    (hd1 : ∀ c ∈ d1, c.isDigit = true) (hd2 : ∀ c ∈ d2, c.isDigit = true) :
    parseLocation (String.mk ('x' :: ':' :: (d1 ++ ',' :: 'y' :: ':' :: d2)))
        = some (digitsToNat d1, digitsToNat d2) ∧
    (∀ str : String, (parseLocation str).isSome = true ↔
        ∃ n, (matchLocAt (str.data.drop n)).isSome = true) := by
  constructor
  · have hm := matchLocAt_exact d1 d2 h1 h2 hd1 hd2
    show searchLoc ('x' :: ':' :: (d1 ++ ',' :: 'y' :: ':' :: d2)) = _
    rw [searchLoc, hm]
  · intro str
    exact searchLoc_isSome_iff str.data

/-- Witness for C5 (amended) at the concrete digit runs `150` and `100`. -/
theorem parseLocation_first_match_semantics_witness :
    parseLocation (String.mk ('x' :: ':' ::
        (['1', '5', '0'] ++ ',' :: 'y' :: ':' :: ['1', '0', '0'])))
        = some (digitsToNat ['1', '5', '0'], digitsToNat ['1', '0', '0']) ∧
    (∀ str : String, (parseLocation str).isSome = true ↔
        ∃ n, (matchLocAt (str.data.drop n)).isSome = true) :=
  parseLocation_first_match_semantics ['1', '5', '0'] ['1', '0', '0']
    (by decide) (by decide) (by decide) (by decide)

/-- Claim C6: a malformed (unparseable) location on either side makes the
location test return false without throwing, and a return damage whose
own location is malformed is flagged new by the marking step; the rest of
the comparison is a total function of the remaining rows and proceeds
unaffected. -/
theorem malformed_location_treated_as_no_match (damages : List Damage) (d p : Damage)
    (hmal : parseLocation d.location = none ∨ parseLocation p.location = none) :
    isDamageLocationMatch d p = false ∧
    (d.phase = .ret → parseLocation d.location = none →
      compareMarkOne damages d = { d with isNew := true }) := by
  constructor
  · rcases hmal with h | h
    · cases hp2 : parseLocation p.location <;> simp [isDamageLocationMatch, h, hp2]
    · cases hd2 : parseLocation d.location <;> simp [isDamageLocationMatch, h, hd2]
  · intro hret hnone
    have hnomatch : ∀ q : Damage, isDamageLocationMatch d q = false := by
      intro q
      cases hq : parseLocation q.location <;> simp [isDamageLocationMatch, hnone, hq]
    have hany : (getDamagesByAngleAndPhase damages d.angle .pickup).any
        (fun pk => isDamageLocationMatch d pk) = false :=
      List.any_eq_false.mpr (fun pk _ => by simp [hnomatch pk])
    have hflag : compareFlag damages d = true := by
      simp [compareFlag, hret, isReturnDamageNew, hany]
    simp [compareMarkOne, hflag]

/-- Witness for C6: the roof return damage with location
`"center of roof"` never matches and is flagged new. -/
theorem malformed_location_treated_as_no_match_witness :
    isDamageLocationMatch malformedReturnDamage scenarioPickupDamage = false ∧
    compareMarkOne [scenarioPickupDamage] malformedReturnDamage
        = { malformedReturnDamage with isNew := true } :=
  ⟨(malformed_location_treated_as_no_match [scenarioPickupDamage] malformedReturnDamage
      scenarioPickupDamage (Or.inl (by decide))).1,
   (malformed_location_treated_as_no_match [scenarioPickupDamage] malformedReturnDamage
      scenarioPickupDamage (Or.inl (by decide))).2 rfl (by decide)⟩

/-- Counterexample to claim C7: the mock provider detects nothing on the
pickup driver side yet reports score `0.95`, not the `1.0` the claim
requires of every provider. -/
theorem mockProvider_score_deviates :
    (mockAnalyzePhoto mockPhoto .driver_side .pickup).detectedDamages = [] ∧
    (mockAnalyzePhoto mockPhoto .driver_side .pickup).analysisScore ≠ 1 := by
  refine ⟨rfl, ?_⟩
  show (95 : ℚ)/100 ≠ 1
  norm_num

/-- Claim C7 (amended): the shared `calculateAnalysisScore` of the
HuggingFace and Roboflow providers is `1.0` on an empty detection list
and otherwise the mean confidence capped at `1.0`; the mock provider
instead reports the fixed scores `0.95` (no detections generated) and
`0.85` (some detections generated). -/
theorem analysisScore_definition (damages : List DetectedDamage) (photo : Photo)
    (angle : VehicleAngle) (phase : AssessmentPhase) (hne : damages ≠ []) :
    calculateAnalysisScore [] = 1 ∧
    calculateAnalysisScore damages
        = min (((damages.map (fun d => d.confidence)).sum) / damages.length) 1 ∧
    (mockAnalyzePhoto photo angle phase).analysisScore
        = (if (mockAnalyzePhoto photo angle phase).detectedDamages.length > 0
           then (85 : ℚ)/100 else 95/100) := by
  refine ⟨rfl, ?_, rfl⟩
  have h0 : ¬(damages.length = 0) := fun h => hne (List.length_eq_zero.mp h)
  unfold calculateAnalysisScore
  rw [if_neg h0, foldl_add_confidence]
  rw [zero_add]

/-- Witness for C7 (amended) on a one-detection list. -/
theorem analysisScore_definition_witness :
    calculateAnalysisScore [] = 1 ∧
    calculateAnalysisScore [witnessDetection]
        = min ((([witnessDetection].map (fun d => d.confidence)).sum)
            / ([witnessDetection] : List DetectedDamage).length) 1 ∧
    (mockAnalyzePhoto mockPhoto .front .ret).analysisScore
        = (if (mockAnalyzePhoto mockPhoto .front .ret).detectedDamages.length > 0
           then (85 : ℚ)/100 else 95/100) :=
  analysisScore_definition [witnessDetection] mockPhoto .front .ret (by decide)

/-- Claim C1: the comparison maps every damage row through the marking
step; a return damage saved by analysis (hence initially unflagged) ends
up with `isNew = true` exactly when no pickup damage of its angle has a
parseable location within Euclidean distance 50 of its own; the flagged
damages' costs sum to `newDamageCost`; and in scenario A the return
damage at `x:154,y:103` is matched by the pickup damage at `x:150,y:100`
(distance ≈ 5), so its `isNew` stays false. -/
theorem compare_flags_iff_no_nearby_pickup (s : AssessmentState) (now : Nat)
    (d : Damage) (_hmem : d ∈ s.damages) (hphase : d.phase = .ret)
    (hnew : d.isNew = false) :
    ((comparePhotosAndDamages now s).damages
        = s.damages.map (compareMarkOne s.damages)) ∧
    ((compareMarkOne s.damages d).isNew = true ↔
      ¬ ∃ p, p ∈ s.damages ∧ p.angle = d.angle ∧ p.phase = .pickup ∧
          withinThreshold d p) ∧
    ((comparePhotosAndDamages now s).newDamageCost
        = ((s.damages.filter (compareFlag s.damages)).map
            (fun e => e.estimatedCost)).sum) ∧
    (compareMarkOne scenarioAState.damages scenarioReturnDamage).isNew = false := by
  have hisNew : (compareMarkOne s.damages d).isNew
      = isReturnDamageNew (getDamagesByAngleAndPhase s.damages d.angle .pickup) d := by
    cases hr : isReturnDamageNew (getDamagesByAngleAndPhase s.damages d.angle .pickup) d
    · simp [compareMarkOne, compareFlag, hphase, hr, hnew]
    · simp [compareMarkOne, compareFlag, hphase, hr]
  refine ⟨rfl, ?_, ?_, ?_⟩
  · rw [hisNew]
    exact isReturnDamageNew_iff s.damages d
  · have hper : ∀ a : VehicleAngle,
        ((getDamagesByAngleAndPhase s.damages a .ret).filter
            (isReturnDamageNew (getDamagesByAngleAndPhase s.damages a .pickup)))
          = s.damages.filter (fun e => e.angle == a && compareFlag s.damages e) := by
      intro a
      unfold getDamagesByAngleAndPhase
      rw [List.filter_filter]
      refine List.filter_congr (fun e _ => ?_)
      by_cases ha : e.angle = a
      · subst ha
        simp [compareFlag, getDamagesByAngleAndPhase, Bool.and_comm]
      · have hbeq : (e.angle == a) = false := by simp [ha]
        simp [hbeq]
    show compareNewDamageCost s.damages = _
    calc compareNewDamageCost s.damages
        = (allAngles.map (fun a =>
            ((s.damages.filter (fun e => e.angle == a && compareFlag s.damages e)).map
              (fun e => e.estimatedCost)).sum)).sum := by
          unfold compareNewDamageCost
          exact congrArg List.sum (List.map_congr_left (fun a _ => by rw [hper a]))
      _ = ((s.damages.filter (compareFlag s.damages)).map
            (fun e => e.estimatedCost)).sum :=
          sum_filter_partition s.damages (compareFlag s.damages) _
  · decide

/-- Witness for C1 on the scenario-A state. -/
theorem compare_flags_iff_no_nearby_pickup_witness :
    ((comparePhotosAndDamages 0 scenarioAState).damages
        = scenarioAState.damages.map (compareMarkOne scenarioAState.damages)) ∧
    ((compareMarkOne scenarioAState.damages scenarioReturnDamage).isNew = true ↔
      ¬ ∃ p, p ∈ scenarioAState.damages ∧ p.angle = scenarioReturnDamage.angle ∧
          p.phase = .pickup ∧ withinThreshold scenarioReturnDamage p) ∧
    ((comparePhotosAndDamages 0 scenarioAState).newDamageCost
        = ((scenarioAState.damages.filter (compareFlag scenarioAState.damages)).map
            (fun e => e.estimatedCost)).sum) ∧
    (compareMarkOne scenarioAState.damages scenarioReturnDamage).isNew = false :=
  compare_flags_iff_no_nearby_pickup scenarioAState 0 scenarioReturnDamage
    (List.mem_cons_of_mem _ (List.mem_cons_self _ _)) rfl rfl

/-- Claim C9: re-running the comparison on its own output (photos and
damages unchanged in between) changes nothing: `newDamageCost`,
`totalDamageCost`, the `completed` status and the damage rows are all
identical to the first run's. -/
theorem compare_idempotent (s : AssessmentState) (now now2 : Nat) :
    (comparePhotosAndDamages now2 (comparePhotosAndDamages now s)).newDamageCost
        = (comparePhotosAndDamages now s).newDamageCost ∧
    (comparePhotosAndDamages now2 (comparePhotosAndDamages now s)).totalDamageCost
        = (comparePhotosAndDamages now s).totalDamageCost ∧
    (comparePhotosAndDamages now2 (comparePhotosAndDamages now s)).status
        = (comparePhotosAndDamages now s).status ∧
    (comparePhotosAndDamages now2 (comparePhotosAndDamages now s)).damages
        = (comparePhotosAndDamages now s).damages := by
  refine ⟨?_, ?_, rfl, ?_⟩
  · show compareNewDamageCost (compareMarkDamages s.damages)
        = compareNewDamageCost s.damages
    exact compareNewDamageCost_compareMark s.damages
  · show calculateTotalDamageCost (compareMarkDamages (compareMarkDamages s.damages))
        = calculateTotalDamageCost (compareMarkDamages s.damages)
    rw [compareMarkDamages_idem]
  · show compareMarkDamages (compareMarkDamages s.damages)
        = compareMarkDamages s.damages
    exact compareMarkDamages_idem s.damages

/-- Counterexample to claim C3: a completed assessment regresses to
`pickup_complete` when `analyzePickupPhotos` is invoked again. -/
theorem status_regression_on_reanalyze :
    (run noDetect (startAssessment "veh-1" "Test Car") fullInspectionOps).status
        = .completed ∧
    (run noDetect (startAssessment "veh-1" "Test Car")
        (fullInspectionOps ++ [.analyzePickup])).status = .pickup_complete ∧
    statusRank .pickup_complete < statusRank .completed := by
  exact ⟨by decide, by decide, by decide⟩

/-- Claim C3 (amended): the status never regresses under uploads, return
analysis or comparison; `analyzePickupPhotos`, however, sets the status
to `pickup_complete` whenever the five pickup photos are present,
regardless of the current status — which regresses an assessment that
had already moved past `pickup_complete`. -/
theorem step_status_monotone_except_reanalyze (detect : DetectFun) (now : Nat)
    (s : AssessmentState) (op : Op) (hop : op ≠ .analyzePickup) :
    statusRank s.status ≤ statusRank (step detect now s op).status ∧
    (step detect now s .analyzePickup).status
        = (if validateAllAnglesComplete s .pickup = true then .pickup_complete
           else s.status) := by
  constructor
  · cases op with
    | upload a ph f sp n =>
        simp only [step]
        rw [uploadPhoto_status]
    | analyzePickup => exact absurd rfl hop
    | analyzeReturn =>
        simp only [step]
        cases hv : validateAllAnglesComplete s .ret with
        | false =>
            simp [analyzeReturnPhotos, hv]
        | true =>
            have hok : analyzeReturnPhotos detect now s
                = .ok { allAngles.foldl (analyzeAngleDamages detect .ret) s with
                        returnAnalyzedAt := some now } := by
              simp [analyzeReturnPhotos, hv]
            rw [hok]
            show statusRank s.status ≤ statusRank
                ((allAngles.foldl (analyzeAngleDamages detect .ret) s).status)
            rw [foldl_analyzeAngle_status]
    | compare =>
        exact statusRank_le_three s.status
  · simp only [step]
    cases hv : validateAllAnglesComplete s .pickup with
    | false =>
        simp [analyzePickupPhotos, hv]
    | true =>
        simp [analyzePickupPhotos, hv]

/-- Witness for C3 (amended): `compare` on a fresh assessment does not
lower the status, and re-analysis behaves as characterized. -/
theorem step_status_monotone_except_reanalyze_witness :
    statusRank (startAssessment "veh-1" "Test Car").status
        ≤ statusRank (step noDetect 0 (startAssessment "veh-1" "Test Car") .compare).status ∧
    (step noDetect 0 (startAssessment "veh-1" "Test Car") .analyzePickup).status
        = (if validateAllAnglesComplete (startAssessment "veh-1" "Test Car") .pickup = true
           then .pickup_complete else (startAssessment "veh-1" "Test Car").status) :=
  step_status_monotone_except_reanalyze noDetect 0 (startAssessment "veh-1" "Test Car")
    .compare (by decide)

/-- Counterexample to claim C4: re-uploading the front pickup photo of an
assessment holding a damage row for that key leaves the damage row in
place — the row is not retired as the claim requires (the prior photo,
however, did exist and is replaced). -/
theorem reupload_keeps_damage_rows :
    (getPhotoByAngleAndPhase frontOnlyState .front .pickup).isSome = true ∧
    ((uploadPhotoByAngle frontOnlyState .front .pickup "front2.jpg" "p1" 2).2.damages.filter
        (fun d => d.angle == .front && d.phase == .pickup)).length = 1 := by
  exact ⟨by decide, by decide⟩

/-- Claim C4 (amended): a re-upload replaces the prior photo — afterwards
the uploaded photo is the unique photo for the `(angle, phase)` key — but
the damage rows for the key are not deleted: every damage row survives
the upload unchanged except that rows referencing the replaced photo get
`photoId` cleared (the schema's `ON DELETE SET NULL`), and the number of
damage rows is unchanged. -/
theorem upload_replaces_photo_preserves_damages (s : AssessmentState)
    (angle : VehicleAngle) (phase : AssessmentPhase) (filename storagePath : String)
    (fileSize : Nat) :
    (uploadPhotoByAngle s angle phase filename storagePath fileSize).2.photos.filter
        (fun q => q.angle == angle && q.phase == phase)
      = [(uploadPhotoByAngle s angle phase filename storagePath fileSize).1] ∧
    (uploadPhotoByAngle s angle phase filename storagePath fileSize).2.damages.map
        stripPhotoRef
      = s.damages.map stripPhotoRef ∧
    (uploadPhotoByAngle s angle phase filename storagePath fileSize).2.damages.length
      = s.damages.length := by
  cases hex : getPhotoByAngleAndPhase s angle phase with
  | none =>
      have hnokey : ∀ q ∈ s.photos, ¬(q.angle == angle && q.phase == phase) = true := by
        intro q hq
        exact List.find?_eq_none.mp hex q hq
      have hupload : uploadPhotoByAngle s angle phase filename storagePath fileSize
          = savePhoto s angle phase filename storagePath fileSize := by
        unfold uploadPhotoByAngle
        rw [hex]
      rw [hupload]
      refine ⟨?_, rfl, rfl⟩
      show (s.photos ++ [(savePhoto s angle phase filename storagePath fileSize).1]).filter
          (fun q : Photo => q.angle == angle && q.phase == phase)
        = [(savePhoto s angle phase filename storagePath fileSize).1]
      rw [List.filter_append, List.filter_eq_nil_iff.mpr hnokey]
      simp [savePhoto]
  | some p =>
      have hupload : uploadPhotoByAngle s angle phase filename storagePath fileSize
          = savePhoto (deletePhotoByAngleAndPhase s angle phase) angle phase
              filename storagePath fileSize := by
        unfold uploadPhotoByAngle
        rw [hex]
      have hdel : deletePhotoByAngleAndPhase s angle phase
          = { s with
              photos := s.photos.filter
                  (fun q => !(q.angle == angle && q.phase == phase))
              damages := s.damages.map (detachDamageFromPhoto p.id) } := by
        unfold deletePhotoByAngleAndPhase
        rw [hex]
      rw [hupload, hdel]
      set s1 : AssessmentState :=
        { s with
          photos := s.photos.filter
              (fun q : Photo => !(q.angle == angle && q.phase == phase))
          damages := s.damages.map (detachDamageFromPhoto p.id) } with hs1
      refine ⟨?_, ?_, by simp [savePhoto]⟩
      · show (s1.photos ++ [(savePhoto s1 angle phase filename storagePath fileSize).1]).filter
            (fun q : Photo => q.angle == angle && q.phase == phase)
          = [(savePhoto s1 angle phase filename storagePath fileSize).1]
        rw [List.filter_append]
        rw [show s1.photos = s.photos.filter
            (fun q : Photo => !(q.angle == angle && q.phase == phase)) from rfl]
        rw [List.filter_filter]
        rw [show (s.photos.filter (fun q : Photo => (q.angle == angle && q.phase == phase)
              && !(q.angle == angle && q.phase == phase))) = [] from
          List.filter_eq_nil_iff.mpr (fun q _ => by
            cases q.angle == angle && q.phase == phase <;> simp)]
        simp [savePhoto]
      · show (s.damages.map (detachDamageFromPhoto p.id)).map stripPhotoRef
            = s.damages.map stripPhotoRef
        rw [List.map_map]
        exact List.map_congr_left (fun d _ => stripPhotoRef_detach p.id d)
